import Mathlib

/-!
Shallow embedding of `packages/content-fetch/src/request_handler.ts`
(the content-fetch-and-fan-out pipeline) and proofs of its specified
properties.

The handler receives a decoded request body, normalizes the recipient
list, invokes the external content fetch, optionally hashes and uploads
the content, builds one save-page job per recipient, submits the batch
to the job queue, and — in a `finally` block — records elapsed time and
emits one analytics event, before answering HTTP 200 (success) or 500
(any caught failure).

External collaborators (fetch, bucket upload, job queue, analytics sink,
the clock) are modelled by an `Env` record fixing their behaviour for
one run; the handler is a pure function from request body and
environment to an observable `RunTrace`.
-/

namespace ContentFetch

/-- Delivery priority of a save request (`priority: high | low`). -/
inductive Priority where
  | high
  | low
  deriving DecidableEq

/-- `interface User` from request_handler.ts: `id: string`, `folder?: string`. -/
structure User where
  id : String
  folder : Option String
  deriving DecidableEq

/-- `interface RequestBody` from request_handler.ts. Optional TypeScript
fields (`field?: T`) are `Option` values; `priority` is required. -/
structure RequestBody where
  url : String
  userId : Option String
  saveRequestId : String
  state : Option String
  labels : Option (List String)
  source : Option String
  taskId : Option String
  locale : Option String
  timezone : Option String
  rssFeedUrl : Option String
  savedAt : Option String
  publishedAt : Option String
  folder : Option String
  users : Option (List User)
  priority : Priority
  deriving DecidableEq

/-- Result of `fetchContent` (the external puppeteer-parse capability):
final URL after redirects, optional title, optional extracted content,
optional content type. -/
structure FetchResult where
  finalUrl : String
  title : Option String
  content : Option String
  contentType : Option String
  deriving DecidableEq

/-- A thrown JavaScript value as the `catch` block discriminates it:
either an `Error` instance carrying a `message` string, or any other
thrown value. -/
inductive JsError where
  | errorObj (message : String)
  | other
  deriving DecidableEq

/-- The message the catch block records:
`error instanceof Error ? error.message : 'unknown error'`. -/
def jsErrMessage : JsError → String
  | JsError.errorObj m => m
  | JsError.other => "unknown error"

/-- JavaScript truthiness of an optional string (`if (x)`, `!!x`):
`undefined` and the empty string are falsy, every other string truthy. -/
def jsTruthy : Option String → Bool
  | none => false
  | some s => !(s = "")

/-- JavaScript `x || d` on an optional string: the default is taken when
`x` is absent or falsy (empty). Used for `body.source || 'puppeteer-parse'`. -/
def jsOrDefault (o : Option String) (d : String) : String :=
  match o with
  | some s => if s = "" then d else s
  | none => d

/-- Models the md5 hex digest from node's `crypto` module (external to this
repository): some fixed deterministic function of the content string.
The pipeline only ever uses it as an opaque content-addressed key. -/
def hash (content : String) : String :=
  String.append "md5-" content

/-- Recipient normalization at the top of `contentFetchRequestHandler`:
`let users = body.users || []`, then if the legacy single-user field
`body.userId` is truthy, `users` is replaced by the single recipient
built from `body.userId` and `body.folder`. -/
def normalizedUsers (body : RequestBody) : List User :=
  let users := body.users.getD []
  match body.userId with
  | some uid => if uid = "" then users else [{ id := uid, folder := body.folder }]
  | none => users

/-- The `data` payload of one save-page job (the object literal built
inside `users.map` in the handler). -/
structure SavePageData where
  userId : String
  url : String
  finalUrl : String
  articleSavingRequestId : String
  state : Option String
  labels : Option (List String)
  source : String
  folder : Option String
  rssFeedUrl : Option String
  savedAt : Option String
  publishedAt : Option String
  taskId : Option String
  title : Option String
  contentType : Option String
  contentHash : Option String
  deriving DecidableEq

/-- One save-page job descriptor handed to `queueSavePageJob`. -/
structure SavePageJob where
  userId : String
  data : SavePageData
  isRss : Bool
  isImport : Bool
  priority : Priority
  deriving DecidableEq

/-- The `savePageJobs` array: `users.map((user) => ...)` — one job per
recipient, copying shared request and fetch fields and injecting the
recipient's `id` and `folder`; `isRss: !!rssFeedUrl`, `isImport: !!taskId`. -/
def savePageJobs (body : RequestBody) (users : List User) (fr : FetchResult)
    (contentHash : Option String) : List SavePageJob :=
  users.map fun user =>
    { userId := user.id
      data :=
        { userId := user.id
          url := body.url
          finalUrl := fr.finalUrl
          articleSavingRequestId := body.saveRequestId
          state := body.state
          labels := body.labels
          source := jsOrDefault body.source "puppeteer-parse"
          folder := user.folder
          rssFeedUrl := body.rssFeedUrl
          savedAt := body.savedAt
          publishedAt := body.publishedAt
          taskId := body.taskId
          title := fr.title
          contentType := fr.contentType
          contentHash := contentHash }
      isRss := jsTruthy body.rssFeedUrl
      isImport := jsTruthy body.taskId
      priority := body.priority }

/-- One analytics event as passed to `analytics.capture`: the recipient
ids, `result: logRecord.error ? 'failure' : 'success'`, and the
`url` / `totalTime` properties. -/
structure AnalyticsEvent where
  distinctIds : List String
  result : String
  url : String
  totalTime : Nat
  deriving DecidableEq

/-- Behaviour of the external collaborators and the clock during one run:
outcome of `fetchContent`, of the bucket `save`, of `queueSavePageJob`
(returning the queued jobs count on success), whether the analytics
sink's own emission fails, and the clock readings at entry and in the
`finally` block. -/
structure Env where
  fetchResult : Except JsError FetchResult
  uploadResult : Except JsError Unit
  queueResult : Except JsError Nat
  sinkFails : Bool
  startTime : Nat
  endTime : Nat

/-- Modelled from the spec: the analytics module (`./analytics`, imported
from a file not under src/) is "fire-and-forget from the Orchestrator's
perspective; its own failures must never affect the run's reported
outcome". `capture` attempts exactly one emission and swallows its own
failure, so the caller observes nothing; the returned list is what the
sink actually received. -/
def analyticsCapture (sinkFails : Bool) (event : AnalyticsEvent) : List AnalyticsEvent :=
  if sinkFails then [] else [event]

/-- Everything observable about one run of the handler: whether
`fetchContent` / `uploadToBucket` / `queueSavePageJob` were invoked and
with what, the error recorded on `logRecord`, the elapsed time, the
events passed to `analytics.capture`, the events the sink delivered,
and the HTTP status sent. -/
structure RunTrace where
  fetchCalled : Bool
  uploadCalled : Bool
  builtJobs : List SavePageJob
  queueCalled : Bool
  submittedJobs : List SavePageJob
  errorRecorded : Option String
  totalTime : Nat
  events : List AnalyticsEvent
  sinkDelivered : List AnalyticsEvent
  httpStatus : Nat
  deriving DecidableEq

/-- Outcome of the `try` block body (everything up to the `catch`):
which externals ran, the jobs built and submitted, and the thrown
error, if any. -/
structure TryOutcome where
  uploadCalled : Bool
  builtJobs : List SavePageJob
  queueCalled : Bool
  submittedJobs : List SavePageJob
  failure : Option JsError
  deriving DecidableEq

/-- Tail of the `try` block once a fetch result and content hash are in
hand: build `savePageJobs` and `await queueSavePageJob(savePageJobs)`,
propagating a queue rejection as the thrown error. -/
def buildAndQueue (body : RequestBody) (users : List User) (env : Env)
    (fr : FetchResult) (uploadCalled : Bool) (contentHash : Option String) : TryOutcome :=
  let jobs := savePageJobs body users fr contentHash
  match env.queueResult with
  | Except.error e =>
      { uploadCalled := uploadCalled, builtJobs := jobs, queueCalled := true,
        submittedJobs := jobs, failure := some e }
  | Except.ok _ =>
      { uploadCalled := uploadCalled, builtJobs := jobs, queueCalled := true,
        submittedJobs := jobs, failure := none }

/-- The `try` block of `contentFetchRequestHandler`:
`await fetchContent(...)`; then `if (content)` (truthy: non-empty) hash
it and `await uploadToBucket(contentHash, content)`; then build and
queue the jobs. A rejection at any `await` aborts the rest of the block
and surfaces as the thrown error. -/
def tryBlock (body : RequestBody) (users : List User) (env : Env) : TryOutcome :=
  match env.fetchResult with
  | Except.error e =>
      { uploadCalled := false, builtJobs := [], queueCalled := false,
        submittedJobs := [], failure := some e }
  | Except.ok fr =>
      match fr.content with
      | some c =>
          if c = "" then
            buildAndQueue body users env fr false none
          else
            match env.uploadResult with
            | Except.error e =>
                { uploadCalled := true, builtJobs := [], queueCalled := false,
                  submittedJobs := [], failure := some e }
            | Except.ok _ =>
                buildAndQueue body users env fr true (some (hash c))
      | none =>
          buildAndQueue body users env fr false none

/-- The whole of `contentFetchRequestHandler`: normalize recipients, run
the `try` block, record `error.message` (or `'unknown error'`) in the
`catch`, and in the `finally` compute `totalTime` and call
`analytics.capture` with one event whose `result` is `'failure'` iff
`logRecord.error` is truthy. The response status is 500 from the
`catch`'s `return res.sendStatus(500)`, else 200. `fetchContent` is
invoked unconditionally as the first statement of the `try`. -/
def contentFetchRequestHandler (body : RequestBody) (env : Env) : RunTrace :=
  let users := normalizedUsers body
  let t := tryBlock body users env
  let errorRecorded := t.failure.map jsErrMessage
  let totalTime := env.endTime - env.startTime
  let event : AnalyticsEvent :=
    { distinctIds := users.map fun user => user.id
      result := if jsTruthy errorRecorded then "failure" else "success"
      url := body.url
      totalTime := totalTime }
  { fetchCalled := true
    uploadCalled := t.uploadCalled
    builtJobs := t.builtJobs
    queueCalled := t.queueCalled
    submittedJobs := t.submittedJobs
    errorRecorded := errorRecorded
    totalTime := totalTime
    events := [event]
    sinkDelivered := analyticsCapture env.sinkFails event
    httpStatus := if t.failure.isSome then 500 else 200 }

/-! ## Concrete fixtures used by witnesses and counterexamples -/

/-- A request whose normalized recipient list is empty: no legacy
`userId`, and an explicitly empty `users` array. -/
def emptyRecipientsBody : RequestBody :=
  { url := "https://a.com", userId := none, saveRequestId := "r1", state := none,
    labels := none, source := none, taskId := none, locale := none, timezone := none,
    rssFeedUrl := none, savedAt := none, publishedAt := none, folder := none,
    users := some [], priority := Priority.high }

/-- A request with a single explicit recipient. -/
def singleUserBody : RequestBody :=
  { emptyRecipientsBody with users := some [{ id := "u1", folder := some "inbox" }] }

/-- A successful fetch result with extractable content. -/
def okFetch : FetchResult :=
  { finalUrl := "https://a.com/amp", title := some "Title", content := some "<html>",
    contentType := some "text/html" }

/-- An environment in which every external call succeeds. -/
def okEnv : Env :=
  { fetchResult := Except.ok okFetch, uploadResult := Except.ok (),
    queueResult := Except.ok 1, sinkFails := false, startTime := 10, endTime := 25 }

/-- An environment whose fetch rejects. -/
def fetchFailEnv : Env :=
  { okEnv with fetchResult := Except.error (JsError.errorObj "net down") }

/-- An environment whose bucket upload rejects. -/
def uploadFailEnv : Env :=
  { okEnv with uploadResult := Except.error (JsError.errorObj "gcs down") }

/-- An environment whose fetch succeeds but yields no content. -/
def noContentEnv : Env :=
  { okEnv with fetchResult := Except.ok { okFetch with content := none } }

/-- An environment whose queue submission rejects with a message. -/
def queueFailEnv : Env :=
  { okEnv with queueResult := Except.error (JsError.errorObj "queue down") }

/-- An environment whose queue submission rejects with an Error whose
message is the empty string. -/
def queueEmptyMsgEnv : Env :=
  { okEnv with queueResult := Except.error (JsError.errorObj "") }

/-! ## Helper lemmas about the try block and the job builder -/

/-- Every job built by `savePageJobs` carries the hash it was given. -/
lemma savePageJobs_contentHash (body : RequestBody) (users : List User)
    (fr : FetchResult) (ch : Option String) :
    ∀ j ∈ savePageJobs body users fr ch, j.data.contentHash = ch := by
  intro j hj
  simp only [savePageJobs, List.mem_map] at hj
  obtain ⟨u, hu, rfl⟩ := hj
  rfl

/-- Every job built by `savePageJobs` derives its flags from the
truthiness of `rssFeedUrl` and `taskId`. -/
lemma savePageJobs_flags (body : RequestBody) (users : List User)
    (fr : FetchResult) (ch : Option String) :
    ∀ j ∈ savePageJobs body users fr ch,
      j.isRss = jsTruthy body.rssFeedUrl ∧ j.isImport = jsTruthy body.taskId := by
  intro j hj
  simp only [savePageJobs, List.mem_map] at hj
  obtain ⟨u, hu, rfl⟩ := hj
  exact ⟨rfl, rfl⟩

/-- With an empty recipient list, the try block builds and submits no jobs,
whatever the externals do. -/
lemma tryBlock_jobs_nil (body : RequestBody) (env : Env) :
    (tryBlock body [] env).builtJobs = [] ∧ (tryBlock body [] env).submittedJobs = [] := by
  obtain ⟨f, u, q, sf, st, et⟩ := env
  rcases f with e | fr
  · exact ⟨rfl, rfl⟩
  · obtain ⟨furl, ftitle, fcontent, fctype⟩ := fr
    rcases fcontent with _ | c
    · rcases q with e | n <;> exact ⟨rfl, rfl⟩
    · simp only [tryBlock]
      rcases eq_or_ne c "" with hce | hce
      · rw [if_pos hce]
        rcases q with e | n <;> exact ⟨rfl, rfl⟩
      · rw [if_neg hce]
        rcases u with e | uu
        · exact ⟨rfl, rfl⟩
        · rcases q with e | n <;> exact ⟨rfl, rfl⟩

/-! ## Claims -/

/-- C1 counterexample: a request whose normalized recipient list is empty
is not rejected before external calls — the fetch is invoked anyway, and
with succeeding externals the run even answers HTTP 200. -/
theorem empty_recipients_fetch_runs_cex :
    normalizedUsers emptyRecipientsBody = [] ∧
    (contentFetchRequestHandler emptyRecipientsBody okEnv).fetchCalled = true ∧
    (contentFetchRequestHandler emptyRecipientsBody okEnv).httpStatus = 200 :=
  ⟨rfl, rfl, rfl⟩

/-- C1 (amended): a save-request whose recipient list is empty after
normalization is not rejected with a validation error; `fetchContent` is
still invoked, and zero jobs are built or submitted. -/
theorem empty_recipients_not_rejected (body : RequestBody) (env : Env)
    (h : normalizedUsers body = []) :
    (contentFetchRequestHandler body env).fetchCalled = true ∧
    (contentFetchRequestHandler body env).builtJobs = [] ∧
    (contentFetchRequestHandler body env).submittedJobs = [] := by
  have hj := tryBlock_jobs_nil body env
  refine ⟨rfl, ?_, ?_⟩
  · show (tryBlock body (normalizedUsers body) env).builtJobs = []
    rw [h]; exact hj.1
  · show (tryBlock body (normalizedUsers body) env).submittedJobs = []
    rw [h]; exact hj.2

/-- C1 witness. -/
theorem empty_recipients_not_rejected_witness :
    (contentFetchRequestHandler emptyRecipientsBody fetchFailEnv).fetchCalled = true ∧
    (contentFetchRequestHandler emptyRecipientsBody fetchFailEnv).builtJobs = [] ∧
    (contentFetchRequestHandler emptyRecipientsBody fetchFailEnv).submittedJobs = [] :=
  empty_recipients_not_rejected emptyRecipientsBody fetchFailEnv rfl

/-- C3: on every exit path the finally-block reporting runs exactly once:
exactly one event is passed to the analytics sink, and `totalTime` is the
clock reading in the finalizer minus the run's start time. -/
theorem reporting_runs_exactly_once (body : RequestBody) (env : Env) :
    (contentFetchRequestHandler body env).events.length = 1 ∧
    (contentFetchRequestHandler body env).totalTime = env.endTime - env.startTime :=
  ⟨rfl, rfl⟩

/-- C4: when the fetch fails, no job is built, the queue is never invoked,
and the run reports failure (HTTP 500). -/
theorem fetch_failure_skips_jobs (body : RequestBody) (env : Env) (e : JsError)
    (hf : env.fetchResult = Except.error e) :
    (contentFetchRequestHandler body env).builtJobs = [] ∧
    (contentFetchRequestHandler body env).queueCalled = false ∧
    (contentFetchRequestHandler body env).httpStatus = 500 := by
  have ht : tryBlock body (normalizedUsers body) env =
      { uploadCalled := false, builtJobs := [], queueCalled := false,
        submittedJobs := [], failure := some e } := by
    unfold tryBlock; rw [hf]
  refine ⟨?_, ?_, ?_⟩
  · show (tryBlock body (normalizedUsers body) env).builtJobs = []
    rw [ht]
  · show (tryBlock body (normalizedUsers body) env).queueCalled = false
    rw [ht]
  · show (if (tryBlock body (normalizedUsers body) env).failure.isSome then 500 else 200) = 500
    rw [ht]
    simp

/-- C4 witness. -/
theorem fetch_failure_skips_jobs_witness :
    (contentFetchRequestHandler singleUserBody fetchFailEnv).builtJobs = [] ∧
    (contentFetchRequestHandler singleUserBody fetchFailEnv).queueCalled = false ∧
    (contentFetchRequestHandler singleUserBody fetchFailEnv).httpStatus = 500 :=
  fetch_failure_skips_jobs singleUserBody fetchFailEnv (JsError.errorObj "net down") rfl

/-- C9: a failure of the analytics sink's own emission is swallowed and
never changes the run's observable outcome — the HTTP status, the recorded
error and the built jobs are identical whether or not the sink fails. -/
theorem sink_failure_no_effect (body : RequestBody) (env : Env) (b : Bool) :
    (contentFetchRequestHandler body { env with sinkFails := b }).httpStatus
        = (contentFetchRequestHandler body env).httpStatus ∧
    (contentFetchRequestHandler body { env with sinkFails := b }).errorRecorded
        = (contentFetchRequestHandler body env).errorRecorded ∧
    (contentFetchRequestHandler body { env with sinkFails := b }).builtJobs
        = (contentFetchRequestHandler body env).builtJobs :=
  ⟨rfl, rfl, rfl⟩

/-- Request exercising both derived flags at once: a non-empty RSS feed
URL together with a non-empty task id. -/
def flagsBothBody : RequestBody :=
  { singleUserBody with rssFeedUrl := some "https://a.com/rss", taskId := some "task-1" }

/-- Request whose `rssFeedUrl` and `taskId` are present but empty strings. -/
def flagsEmptyStringsBody : RequestBody :=
  { singleUserBody with rssFeedUrl := some "", taskId := some "" }

/-- Request carrying both the legacy single-user field and a non-empty
explicit `users` list. -/
def legacyBody : RequestBody :=
  { singleUserBody with userId := some "legacy-user", folder := some "archive" }

/-- Request whose legacy `userId` field is present but the empty string,
next to a non-empty explicit `users` list. -/
def legacyEmptyUserIdBody : RequestBody :=
  { singleUserBody with userId := some "" }

/-- A placeholder job used only as the default of `List.headD`. -/
def defaultJob : SavePageJob :=
  { userId := ""
    data :=
      { userId := "", url := "", finalUrl := "", articleSavingRequestId := "",
        state := none, labels := none, source := "", folder := none,
        rssFeedUrl := none, savedAt := none, publishedAt := none, taskId := none,
        title := none, contentType := none, contentHash := none }
    isRss := false, isImport := false, priority := Priority.low }

/-- The first job built for `flagsBothBody` in the all-success environment. -/
def flagsJob : SavePageJob :=
  ((contentFetchRequestHandler flagsBothBody okEnv).builtJobs).headD defaultJob

/-- Under a successful fetch, upload and queue submission, the try block
builds and submits exactly the jobs of `savePageJobs` (for some content
hash), invokes the queue, and records no failure. -/
lemma tryBlock_all_ok (body : RequestBody) (users : List User) (env : Env)
    (fr : FetchResult) (n : Nat)
    (hf : env.fetchResult = Except.ok fr) (hu : env.uploadResult = Except.ok ())
    (hq : env.queueResult = Except.ok n) :
    ∃ ch, (tryBlock body users env).builtJobs = savePageJobs body users fr ch ∧
      (tryBlock body users env).submittedJobs = savePageJobs body users fr ch ∧
      (tryBlock body users env).queueCalled = true ∧
      (tryBlock body users env).failure = none := by
  rcases hfc : fr.content with _ | c
  · refine ⟨none, ?_, ?_, ?_, ?_⟩ <;>
      simp only [tryBlock, hf, hfc, buildAndQueue, hq]
  · rcases eq_or_ne c "" with hce | hce
    · refine ⟨none, ?_, ?_, ?_, ?_⟩ <;>
        simp only [tryBlock, hf, hfc, buildAndQueue, hq, if_pos hce]
    · refine ⟨some (hash c), ?_, ?_, ?_, ?_⟩ <;>
        simp only [tryBlock, hf, hfc, buildAndQueue, hq, hu, if_neg hce]

/-- The jobs a run ever builds are those of `savePageJobs` for the
normalized recipients (or none at all). -/
lemma builtJobs_shape (body : RequestBody) (env : Env) :
    (contentFetchRequestHandler body env).builtJobs = [] ∨
    ∃ fr ch, (contentFetchRequestHandler body env).builtJobs
        = savePageJobs body (normalizedUsers body) fr ch := by
  show (tryBlock body (normalizedUsers body) env).builtJobs = [] ∨
    ∃ fr ch, (tryBlock body (normalizedUsers body) env).builtJobs
        = savePageJobs body (normalizedUsers body) fr ch
  rcases hf : env.fetchResult with e | fr
  · left; simp only [tryBlock, hf]
  · rcases hfc : fr.content with _ | c
    · right
      rcases hq : env.queueResult with e | n <;>
        exact ⟨fr, none, by simp only [tryBlock, hf, hfc, buildAndQueue, hq]⟩
    · rcases eq_or_ne c "" with hce | hce
      · right
        rcases hq : env.queueResult with e | n <;>
          exact ⟨fr, none, by simp only [tryBlock, hf, hfc, buildAndQueue, hq, if_pos hce]⟩
      · rcases hu : env.uploadResult with e | uu
        · left; simp only [tryBlock, hf, hfc, if_neg hce, hu]
        · right
          rcases hq : env.queueResult with e | n <;>
            exact ⟨fr, some (hash c),
              by simp only [tryBlock, hf, hfc, buildAndQueue, hq, if_neg hce, hu]⟩

/-- When the queue rejects and the run actually reached the submission,
that rejection is the error the catch block receives. -/
lemma tryBlock_queue_error (body : RequestBody) (users : List User) (env : Env) (e : JsError)
    (hq : env.queueResult = Except.error e)
    (hcalled : (tryBlock body users env).queueCalled = true) :
    (tryBlock body users env).failure = some e := by
  rcases hf : env.fetchResult with e2 | fr
  · simp [tryBlock, hf] at hcalled
  · rcases hfc : fr.content with _ | c
    · simp only [tryBlock, hf, hfc, buildAndQueue, hq]
    · rcases eq_or_ne c "" with hce | hce
      · simp only [tryBlock, hf, hfc, buildAndQueue, hq, if_pos hce]
      · rcases hu : env.uploadResult with e3 | uu
        · simp [tryBlock, hf, hfc, if_neg hce, hu] at hcalled
        · simp only [tryBlock, hf, hfc, buildAndQueue, hq, if_neg hce, hu]

/-- C2: when fetch, upload and queue submission all succeed, one job is
submitted per normalized recipient, in input order, each carrying its
recipient's id and folder, and the run answers HTTP 200. -/
theorem fanout_matches_recipients (body : RequestBody) (env : Env) (fr : FetchResult) (n : Nat)
    (hne : normalizedUsers body ≠ [])
    (hf : env.fetchResult = Except.ok fr)
    (hu : env.uploadResult = Except.ok ())
    (hq : env.queueResult = Except.ok n) :
    (contentFetchRequestHandler body env).submittedJobs.length
        = (normalizedUsers body).length ∧
    ((contentFetchRequestHandler body env).submittedJobs.map fun j => j.userId)
        = ((normalizedUsers body).map fun u => u.id) ∧
    ((contentFetchRequestHandler body env).submittedJobs.map fun j => j.data.folder)
        = ((normalizedUsers body).map fun u => u.folder) ∧
    (contentFetchRequestHandler body env).httpStatus = 200 := by
  obtain ⟨ch, hb, hs, hqc, hfail⟩ :=
    tryBlock_all_ok body (normalizedUsers body) env fr n hf hu hq
  have hsub : (contentFetchRequestHandler body env).submittedJobs
      = savePageJobs body (normalizedUsers body) fr ch := hs
  refine ⟨?_, ?_, ?_, ?_⟩
  · rw [hsub]; simp [savePageJobs]
  · rw [hsub]; unfold savePageJobs; rw [List.map_map]; rfl
  · rw [hsub]; unfold savePageJobs; rw [List.map_map]; rfl
  · have h2 : (contentFetchRequestHandler body env).httpStatus
        = if (tryBlock body (normalizedUsers body) env).failure.isSome then 500 else 200 := rfl
    rw [h2, hfail]
    simp

/-- C2 witness. -/
theorem fanout_matches_recipients_witness :
    (contentFetchRequestHandler singleUserBody okEnv).submittedJobs.length
        = (normalizedUsers singleUserBody).length ∧
    ((contentFetchRequestHandler singleUserBody okEnv).submittedJobs.map fun j => j.userId)
        = ((normalizedUsers singleUserBody).map fun u => u.id) ∧
    ((contentFetchRequestHandler singleUserBody okEnv).submittedJobs.map fun j => j.data.folder)
        = ((normalizedUsers singleUserBody).map fun u => u.folder) ∧
    (contentFetchRequestHandler singleUserBody okEnv).httpStatus = 200 :=
  fanout_matches_recipients singleUserBody okEnv okFetch 1 (by decide) rfl rfl rfl

/-- C5: when the bucket upload of fetched content fails, the queue is
never invoked — no job is submitted — and the run reports failure. -/
theorem storage_failure_fatal (body : RequestBody) (env : Env) (fr : FetchResult)
    (c : String) (e : JsError)
    (hf : env.fetchResult = Except.ok fr) (hc : fr.content = some c) (hce : c ≠ "")
    (hu : env.uploadResult = Except.error e) :
    (contentFetchRequestHandler body env).queueCalled = false ∧
    (contentFetchRequestHandler body env).submittedJobs = [] ∧
    (contentFetchRequestHandler body env).httpStatus = 500 := by
  have ht : tryBlock body (normalizedUsers body) env =
      { uploadCalled := true, builtJobs := [], queueCalled := false,
        submittedJobs := [], failure := some e } := by
    simp only [tryBlock, hf, hc, if_neg hce, hu]
  refine ⟨?_, ?_, ?_⟩
  · show (tryBlock body (normalizedUsers body) env).queueCalled = false
    rw [ht]
  · show (tryBlock body (normalizedUsers body) env).submittedJobs = []
    rw [ht]
  · show (if (tryBlock body (normalizedUsers body) env).failure.isSome then 500 else 200) = 500
    rw [ht]; simp

/-- C5 witness. -/
theorem storage_failure_fatal_witness :
    (contentFetchRequestHandler singleUserBody uploadFailEnv).queueCalled = false ∧
    (contentFetchRequestHandler singleUserBody uploadFailEnv).submittedJobs = [] ∧
    (contentFetchRequestHandler singleUserBody uploadFailEnv).httpStatus = 500 :=
  storage_failure_fatal singleUserBody uploadFailEnv okFetch "<html>"
    (JsError.errorObj "gcs down") rfl rfl (by decide) rfl

/-- C6: when the fetch succeeds but yields no content, no upload happens,
every built job has `contentHash` unset, and the run still proceeds to
build one job per recipient and submit the batch. -/
theorem absent_content_proceeds (body : RequestBody) (env : Env) (fr : FetchResult)
    (hf : env.fetchResult = Except.ok fr) (hc : fr.content = none) :
    (contentFetchRequestHandler body env).uploadCalled = false ∧
    (∀ j ∈ (contentFetchRequestHandler body env).builtJobs, j.data.contentHash = none) ∧
    (contentFetchRequestHandler body env).queueCalled = true ∧
    (contentFetchRequestHandler body env).builtJobs.length = (normalizedUsers body).length := by
  have ht : tryBlock body (normalizedUsers body) env =
      { uploadCalled := false,
        builtJobs := savePageJobs body (normalizedUsers body) fr none,
        queueCalled := true,
        submittedJobs := savePageJobs body (normalizedUsers body) fr none,
        failure :=
          match env.queueResult with
          | Except.error e => some e
          | Except.ok _ => none } := by
    rcases hq : env.queueResult with e | n <;>
      simp only [tryBlock, hf, hc, buildAndQueue, hq]
  refine ⟨?_, ?_, ?_, ?_⟩
  · show (tryBlock body (normalizedUsers body) env).uploadCalled = false
    rw [ht]
  · show ∀ j ∈ (tryBlock body (normalizedUsers body) env).builtJobs, j.data.contentHash = none
    rw [ht]
    exact savePageJobs_contentHash body (normalizedUsers body) fr none
  · show (tryBlock body (normalizedUsers body) env).queueCalled = true
    rw [ht]
  · show (tryBlock body (normalizedUsers body) env).builtJobs.length
        = (normalizedUsers body).length
    rw [ht]
    simp [savePageJobs]

/-- C6 witness. -/
theorem absent_content_proceeds_witness :
    (contentFetchRequestHandler singleUserBody noContentEnv).uploadCalled = false ∧
    (∀ j ∈ (contentFetchRequestHandler singleUserBody noContentEnv).builtJobs,
        j.data.contentHash = none) ∧
    (contentFetchRequestHandler singleUserBody noContentEnv).queueCalled = true ∧
    (contentFetchRequestHandler singleUserBody noContentEnv).builtJobs.length
        = (normalizedUsers singleUserBody).length :=
  absent_content_proceeds singleUserBody noContentEnv { okFetch with content := none } rfl rfl

/-- C7 counterexample: `rssFeedUrl` and `taskId` present but equal to the
empty string yield jobs with `isRss = false` and `isImport = false`, so
"present" alone does not determine the flags. -/
theorem flags_empty_string_cex :
    flagsEmptyStringsBody.rssFeedUrl.isSome = true ∧
    flagsEmptyStringsBody.taskId.isSome = true ∧
    ((contentFetchRequestHandler flagsEmptyStringsBody okEnv).builtJobs.map fun j => j.isRss)
        = [false] ∧
    ((contentFetchRequestHandler flagsEmptyStringsBody okEnv).builtJobs.map fun j => j.isImport)
        = [false] := by
  decide

/-- C7 (amended): every built job's `isRss` equals the truthiness
(present and non-empty) of the request's `rssFeedUrl`, and its `isImport`
equals the truthiness of `taskId`; the two are derived independently and
may both be true. -/
theorem flags_derived_from_truthiness (body : RequestBody) (env : Env) (j : SavePageJob)
    (h : j ∈ (contentFetchRequestHandler body env).builtJobs) :
    j.isRss = jsTruthy body.rssFeedUrl ∧ j.isImport = jsTruthy body.taskId := by
  rcases builtJobs_shape body env with hnil | ⟨fr, ch, heq⟩
  · rw [hnil] at h
    exact absurd h (List.not_mem_nil j)
  · rw [heq] at h
    exact savePageJobs_flags body (normalizedUsers body) fr ch j h

/-- C7 witness: a request that is both an RSS save and an import. -/
theorem flags_derived_from_truthiness_witness :
    flagsJob.isRss = jsTruthy flagsBothBody.rssFeedUrl ∧
    flagsJob.isImport = jsTruthy flagsBothBody.taskId :=
  flags_derived_from_truthiness flagsBothBody okEnv flagsJob (by decide)

/-- C8 counterexample: a queue rejection whose `Error` carries an empty
message is recorded as the empty string — the run fails (HTTP 500) but
the recorded error message is not non-empty. -/
theorem queue_failure_empty_message_cex :
    (contentFetchRequestHandler singleUserBody queueEmptyMsgEnv).httpStatus = 500 ∧
    (contentFetchRequestHandler singleUserBody queueEmptyMsgEnv).errorRecorded = some "" := by
  decide

/-- C8 (amended): when the queue submission the run reached rejects, the
run reports failure (HTTP 500), records exactly the rejection's message
(`'unknown error'` for a non-Error throw), and the sink still receives
exactly one event. -/
theorem queue_failure_reported (body : RequestBody) (env : Env) (e : JsError)
    (hq : env.queueResult = Except.error e)
    (hcalled : (contentFetchRequestHandler body env).queueCalled = true) :
    (contentFetchRequestHandler body env).httpStatus = 500 ∧
    (contentFetchRequestHandler body env).errorRecorded = some (jsErrMessage e) ∧
    (contentFetchRequestHandler body env).events.length = 1 := by
  have hfail : (tryBlock body (normalizedUsers body) env).failure = some e :=
    tryBlock_queue_error body (normalizedUsers body) env e hq hcalled
  refine ⟨?_, ?_, rfl⟩
  · show (if (tryBlock body (normalizedUsers body) env).failure.isSome then 500 else 200) = 500
    rw [hfail]; simp
  · show ((tryBlock body (normalizedUsers body) env).failure.map jsErrMessage)
        = some (jsErrMessage e)
    simp [hfail]

/-- C8 witness. -/
theorem queue_failure_reported_witness :
    (contentFetchRequestHandler singleUserBody queueFailEnv).httpStatus = 500 ∧
    (contentFetchRequestHandler singleUserBody queueFailEnv).errorRecorded
        = some (jsErrMessage (JsError.errorObj "queue down")) ∧
    (contentFetchRequestHandler singleUserBody queueFailEnv).events.length = 1 :=
  queue_failure_reported singleUserBody queueFailEnv (JsError.errorObj "queue down")
    rfl (by decide)

/-- C10 counterexample: a legacy `userId` that is present but empty does
not override the explicit `users` list — normalization keeps the list,
not the single legacy recipient. -/
theorem legacy_empty_userid_cex :
    legacyEmptyUserIdBody.userId.isSome = true ∧
    normalizedUsers legacyEmptyUserIdBody = [{ id := "u1", folder := some "inbox" }] ∧
    normalizedUsers legacyEmptyUserIdBody
        ≠ [{ id := "", folder := legacyEmptyUserIdBody.folder }] := by
  decide

/-- C10 (amended): whenever the legacy `userId` field is present and
non-empty, the normalized recipient list is exactly the single recipient
built from the top-level `userId` and `folder`, even when a non-empty
explicit `users` list was also supplied. -/
theorem legacy_userid_overrides_users (body : RequestBody) (uid : String)
    (hu : body.userId = some uid) (hne : uid ≠ "") :
    normalizedUsers body = [{ id := uid, folder := body.folder }] := by
  simp only [normalizedUsers, hu, if_neg hne]

/-- C10 witness: the legacy field wins over a non-empty `users` list. -/
theorem legacy_userid_overrides_users_witness :
    normalizedUsers legacyBody = [{ id := "legacy-user", folder := legacyBody.folder }] :=
  legacy_userid_overrides_users legacyBody "legacy-user" rfl (by decide)

end ContentFetch
